import Mathlib

/-!
Verification of the todoist CLI repository.

Shallow embedding of the Python sources:
  * `src/todoist_cli/auth.py`    — AuthManager token resolution
  * `src/todoist_cli/api.py`     — TodoistManager task creation, parse_due_date
  * `src/todoist_cli/commands.py`— DeleteTaskCommand, CommandRegistry
  * `src/todoist_cli/utils.py`   — load_config / save_config

Effectful code is embedded by passing the ambient state explicitly (environment
variable contents, subprocess outcomes, remote-service behaviour, stdin lines,
file contents) and returning the observable effects (printed lines, calls made)
alongside the Python return value.
-/

set_option autoImplicit false

namespace TodoistCLI

/-! ### Python semantics helpers -/

/-- Model of Python str.lower restricted to the ASCII range, the only range the
repository exercises (command names, confirmation input, due-date keywords).
Core Char.toLower lowers exactly the basic latin uppercase letters. -/
def pyLower (s : String) : String := ⟨s.data.map Char.toLower⟩

/-- Truthiness of a Python str: the empty string is falsy. -/
def pyTruthyStr (s : String) : Bool := !(s == "")

/-- Truthiness of a Python Optional[str]: None and the empty string are falsy. -/
def pyTruthyOptStr : Option String → Bool
  | none => false
  | some s => pyTruthyStr s

/-- Model of Python str.strip() with no argument: remove leading and trailing
whitespace (the repository only ever strips ASCII CLI output, for which
Char.isWhitespace matches Python's whitespace set). -/
def pyStrip (s : String) : String :=
  ⟨(((s.data.dropWhile Char.isWhitespace).reverse.dropWhile Char.isWhitespace).reverse)⟩

/-! ### auth.py — AuthManager -/

/-- Outcome of running the external 1Password CLI process `op read <path>`
under subprocess.run(..., check=True): captured stdout on exit code 0,
subprocess.CalledProcessError on a non-zero exit, and any other exception
(for example FileNotFoundError for a missing binary) as otherError. -/
inductive OpResult where
  | ok (stdout : String)
  | calledProcessError (message : String)
  | otherError (message : String)
deriving DecidableEq

/-- Result of AuthManager.get_api_token together with its observable effects:
the returned Optional[str], the lines printed to stdout, and the 1Password
paths passed to the op CLI (the secret-store lookups attempted). -/
structure ResolveResult where
  token : Option String
  printed : List String
  opCalls : List String
deriving DecidableEq

/-- The fixed environment variable name AuthManager consults. -/
def env_var_name : String := "TODOIST_API_TOKEN"

/-- AuthManager._get_token_from_env: read the environment variable; when the
value is truthy (present and non-empty) print the diagnostic and return it,
otherwise return None having printed nothing. -/
def _get_token_from_env (envToken : Option String) : Option String × List String :=
  if pyTruthyOptStr envToken then
    (envToken, ["Using API token from environment variable " ++ env_var_name])
  else (none, [])

/-- AuthManager._get_token_from_1password: run `op read token_path`; on success
strip the captured stdout and return it (possibly empty) after printing a
diagnostic; on CalledProcessError or any other exception print error guidance
and return None. -/
def _get_token_from_1password (token_path : String) (opRead : String → OpResult) :
    Option String × List String :=
  match opRead token_path with
  | .ok stdout => (some (pyStrip stdout), ["Retrieved API token from 1Password"])
  | .calledProcessError msg =>
      (none, ["Error retrieving API token from 1Password: " ++ msg,
              "Make sure 1Password CLI is installed and you're signed in."])
  | .otherError msg => (none, ["Unexpected error accessing 1Password: " ++ msg])

/-- AuthManager.get_api_token: try the environment variable first and return
its value when truthy; else, when token_path is truthy, try 1Password and
return its value when truthy; else return None. opCalls records each
invocation of the op CLI. -/
def get_api_token (token_path : String) (envToken : Option String)
    (opRead : String → OpResult) : ResolveResult :=
  let envRes := _get_token_from_env envToken
  if pyTruthyOptStr envRes.1 then
    { token := envRes.1, printed := envRes.2, opCalls := [] }
  else if pyTruthyStr token_path then
    let opRes := _get_token_from_1password token_path opRead
    if pyTruthyOptStr opRes.1 then
      { token := opRes.1, printed := envRes.2 ++ opRes.2, opCalls := [token_path] }
    else
      { token := none, printed := envRes.2 ++ opRes.2, opCalls := [token_path] }
  else
    { token := none, printed := envRes.2, opCalls := [] }

/-! ### api.py — TodoistManager -/

/-- A Todoist task object, restricted to the fields the embedded code reads. -/
structure Task where
  id : String
  content : String
deriving DecidableEq

/-- One call to the SDK's add_task endpoint: the content plus the optional
parent_id keyword argument. -/
structure ApiCall where
  content : String
  parent_id : Option String
deriving DecidableEq

/-- Behaviour of the remote service: given the calls already made and the
current call, either the created task, or none when the SDK raises. -/
abbrev ApiBehaviour := List ApiCall → ApiCall → Option Task

/-- TodoistManager.add_task: forwards to the SDK (the call is recorded in the
trace) and re-raises any SDK error to the caller. -/
def add_task (api : ApiBehaviour) (trace : List ApiCall) (content : String)
    (parent_id : Option String) : List ApiCall × Option Task :=
  (trace ++ [⟨content, parent_id⟩], api trace ⟨content, parent_id⟩)

/-- The subtask loop inside create_task_with_subtasks: create each subtask in
the given order with parent_id set; an SDK error aborts the loop and
propagates, leaving earlier creations in place (false = raised). -/
def create_subtasks (api : ApiBehaviour) (parentId : String) :
    List ApiCall → List String → List ApiCall × Bool
  | trace, [] => (trace, true)
  | trace, st :: rest =>
      let r := add_task api trace st (some parentId)
      match r.2 with
      | none => (r.1, false)
      | some _ => create_subtasks api parentId r.1 rest

/-- TodoistManager.create_task_with_subtasks: create the parent task; when a
truthy (non-empty) subtask list was given, create each subtask with the
parent's id. A result of none models an exception propagating to the caller;
the trace records every SDK call that occurred (nothing is rolled back). -/
def create_task_with_subtasks (api : ApiBehaviour) (trace : List ApiCall)
    (content : String) (subtasks : Option (List String)) :
    List ApiCall × Option Task :=
  let r := add_task api trace content none
  match r.2 with
  | none => (r.1, none)
  | some task =>
    match subtasks with
    | none => (r.1, some task)
    | some sts =>
      if sts.isEmpty then (r.1, some task)
      else
        let s := create_subtasks api task.id r.1 sts
        (s.1, if s.2 then some task else none)

/-- A calendar date as held by a Python datetime.date. -/
structure Date where
  year : Nat
  month : Nat
  day : Nat
deriving DecidableEq

/-- Gregorian leap-year rule, as implemented by the datetime module. -/
def isLeapYear (y : Nat) : Bool :=
  (y % 4 == 0) && (y % 100 != 0 || y % 400 == 0)

/-- Number of days in a month of the Gregorian calendar. -/
def daysInMonth (y m : Nat) : Nat :=
  if m = 2 then (if isLeapYear y then 29 else 28)
  else if m = 4 ∨ m = 6 ∨ m = 9 ∨ m = 11 then 30
  else 31

/-- Model of datetime.date + timedelta(days=1). -/
def Date.nextDay (d : Date) : Date :=
  if d.day < daysInMonth d.year d.month then ⟨d.year, d.month, d.day + 1⟩
  else if d.month < 12 then ⟨d.year, d.month + 1, 1⟩
  else ⟨d.year + 1, 1, 1⟩

/-- Zero-padded decimal rendering of width 2. -/
def pad2 (n : Nat) : String := if n < 10 then "0" ++ toString n else toString n

/-- Zero-padded decimal rendering of width 4, as date.isoformat prints years. -/
def pad4 (n : Nat) : String :=
  if n < 10 then "000" ++ toString n
  else if n < 100 then "00" ++ toString n
  else if n < 1000 then "0" ++ toString n
  else toString n

/-- Model of datetime.date.isoformat: "YYYY-MM-DD". -/
def Date.isoformat (d : Date) : String :=
  pad4 d.year ++ "-" ++ pad2 d.month ++ "-" ++ pad2 d.day

/-- The dictionary {"date": ...} that parse_due_date returns. -/
structure DueDict where
  date : String
deriving DecidableEq

/-- TodoistManager.parse_due_date, with datetime.now().date() passed in as
today: the lowercased input is compared against "today" and "tomorrow";
any other string is passed through unchanged as the "date" value. -/
def parse_due_date (today : Date) (due_string : String) : DueDict :=
  if pyLower due_string = "today" then ⟨today.isoformat⟩
  else if pyLower due_string = "tomorrow" then ⟨today.nextDay.isoformat⟩
  else ⟨due_string⟩

/-! ### commands.py — DeleteTaskCommand and CommandRegistry -/

/-- Observable effects of DeleteTaskCommand.execute after argument parsing:
the task ids for which todoist.delete_task was invoked, and the user-facing
messages printed. -/
structure DeleteEffects where
  deleteCalls : List String
  printed : List String
deriving DecidableEq

/-- DeleteTaskCommand.execute (post-parse, successful remote call): without
--force, one line is read from stdin; unless its lowercasing equals "y" the
cancellation notice is printed and the handler returns with no remote call;
otherwise todoist.delete_task is invoked once. -/
def delete_task_execute (task_id : String) (force : Bool) (inputLine : String) :
    DeleteEffects :=
  if !force && pyLower inputLine != "y" then
    ⟨[], ["Deletion cancelled."]⟩
  else
    ⟨[task_id], ["Task " ++ task_id ++ " deleted!"]⟩

/-- The command classes registered by CommandRegistry._register_commands. -/
inductive CommandClass where
  | listTasks
  | createTask
  | completeTask
  | deleteTask
  | createResetTask
  | listProjects
  | listLabels
deriving DecidableEq

/-- Python dict assignment d[k] = v on an insertion-ordered association list:
replace the value in place when the key exists, else append the new entry. -/
def dictSet {α : Type} (reg : List (String × α)) (k : String) (v : α) :
    List (String × α) :=
  if k ∈ reg.map Prod.fst then
    reg.map fun p => if p.1 = k then (k, v) else p
  else reg ++ [(k, v)]

/-- CommandRegistry.register_command: self.commands[name] = command_class(..). -/
def register_command {α : Type} (commands : List (String × α)) (name : String)
    (c : α) : List (String × α) :=
  dictSet commands name c

/-- The registrations performed by CommandRegistry._register_commands, in
source order; the final two entries are backward-compatibility aliases. -/
def registration_order : List (String × CommandClass) :=
  [("list", .listTasks), ("add", .createTask), ("complete", .completeTask),
   ("delete", .deleteTask), ("reset", .createResetTask),
   ("projects", .listProjects), ("labels", .listLabels),
   ("create", .createTask), ("create_reset_task", .createResetTask)]

/-- The commands dict after CommandRegistry.__init__ has run. -/
def initial_commands : List (String × CommandClass) :=
  registration_order.foldl (fun acc p => register_command acc p.1 p.2) []

/-- Outcome of CommandRegistry.execute_command: either the named command's
handler runs, or _show_help displays the full help table. -/
inductive DispatchResult where
  | executed (c : CommandClass)
  | helpShown
deriving DecidableEq

/-- CommandRegistry.execute_command: run the handler when the name is a key of
the commands dict, else call _show_help; no exception in either case. -/
def execute_command (commands : List (String × CommandClass)) (name : String) :
    DispatchResult :=
  match commands.find? (fun p => p.1 == name) with
  | some p => .executed p.2
  | none => .helpShown

/-- Modelled from the spec: the CLI entry point that wires CommandRegistry is
not under src/ (src/main.py is an earlier prototype with its own inline
dispatch); per the spec, the entry point invokes execute_command and maps any
non-fatal completion, including the unknown-command help path, to exit code 0. -/
def entry_exit_code (name : String) : Nat :=
  match execute_command initial_commands name with
  | .executed _ => 0
  | .helpShown => 0

/-! ### utils.py — load_config / save_config -/

/-- JSON-representable configuration values. -/
inductive ConfigValue where
  | str (s : String)
  | num (n : Int)
  | bool (b : Bool)
  | null
deriving DecidableEq

/-- A JSON object / Python dict as an insertion-ordered association list. -/
abbrev ConfigDict := List (String × ConfigValue)

/-- The default_config literal inside load_config. -/
def default_config : ConfigDict :=
  [("token_path", .str "op://Private/Todoist/token"),
   ("default_project", .null),
   ("default_priority", .num 1),
   ("use_colors", .bool true),
   ("verbose", .bool false)]

/-- Python dict.update: assign each entry of upd into base, in order. -/
def dictUpdate {α : Type} (base upd : List (String × α)) : List (String × α) :=
  upd.foldl (fun acc p => dictSet acc p.1 p.2) base

/-- What the filesystem holds at the config path: no file, a file that
json.load (or reading it) raises on, or a file parsing to a JSON object. -/
inductive FileContent where
  | absent
  | malformed
  | object (kvs : ConfigDict)
deriving DecidableEq

/-- load_config: a copy of the defaults, overlaid via dict.update with the
parsed object when the file exists and parses; the boolean records whether
logging.warning was called, which happens only on a parse or read error —
a missing file is skipped silently by the os.path.exists guard. -/
def load_config (file : FileContent) : ConfigDict × Bool :=
  match file with
  | .absent => (default_config, false)
  | .malformed => (default_config, true)
  | .object kvs => (dictUpdate default_config kvs, false)

/-- save_config on its successful path: json.dump serializes the dict, so the
file at the path now parses back to exactly that object (the function then
returns True). -/
def save_config (config : ConfigDict) : FileContent :=
  .object config


/-- Claim C1: if TODOIST_API_TOKEN is set to a non-empty string, get_api_token
returns exactly that string, regardless of token_path and of the secret-store
behaviour, and no op CLI lookup is attempted. -/
theorem env_token_precedence (token_path t : String) (opRead : String → OpResult)
    (h : t ≠ "") :
    get_api_token token_path (some t) opRead =
      { token := some t,
        printed := ["Using API token from environment variable " ++ env_var_name],
        opCalls := [] } := by
  simp [get_api_token, _get_token_from_env, pyTruthyOptStr, pyTruthyStr, h]

theorem env_token_precedence_witness :
    get_api_token "op://Private/Todoist/token" (some "secret-token")
        (fun _ => OpResult.calledProcessError "boom") =
      { token := some "secret-token",
        printed := ["Using API token from environment variable TODOIST_API_TOKEN"],
        opCalls := [] } :=
  env_token_precedence "op://Private/Todoist/token" "secret-token"
    (fun _ => OpResult.calledProcessError "boom") (by decide)

/-- Claim C10: get_api_token never returns the empty string — its result is
None or a non-empty string — and a 1Password lookup whose stripped stdout is
empty yields overall resolution failure, not an empty token. -/
theorem token_never_empty (token_path : String) (envToken : Option String)
    (opRead : String → OpResult) :
    (∀ s, (get_api_token token_path envToken opRead).token = some s → s ≠ "") ∧
    (pyTruthyOptStr envToken = false → ∀ out, opRead token_path = .ok out →
      pyStrip out = "" → (get_api_token token_path envToken opRead).token = none) := by
  constructor
  · intro s hs hempty
    subst hempty
    cases envToken with
    | none =>
      by_cases htp : token_path = ""
      · simp [get_api_token, _get_token_from_env, pyTruthyOptStr, pyTruthyStr, htp] at hs
      · cases hop : opRead token_path with
        | ok out =>
          by_cases hps : pyStrip out = "" <;>
            simp [get_api_token, _get_token_from_env, _get_token_from_1password,
              pyTruthyOptStr, pyTruthyStr, htp, hop, hps] at hs
        | calledProcessError m =>
          simp [get_api_token, _get_token_from_env, _get_token_from_1password,
            pyTruthyOptStr, pyTruthyStr, htp, hop] at hs
        | otherError m =>
          simp [get_api_token, _get_token_from_env, _get_token_from_1password,
            pyTruthyOptStr, pyTruthyStr, htp, hop] at hs
    | some t =>
      by_cases ht : t = ""
      · subst ht
        by_cases htp : token_path = ""
        · simp [get_api_token, _get_token_from_env, pyTruthyOptStr, pyTruthyStr, htp] at hs
        · cases hop : opRead token_path with
          | ok out =>
            by_cases hps : pyStrip out = "" <;>
              simp [get_api_token, _get_token_from_env, _get_token_from_1password,
                pyTruthyOptStr, pyTruthyStr, htp, hop, hps] at hs
          | calledProcessError m =>
            simp [get_api_token, _get_token_from_env, _get_token_from_1password,
              pyTruthyOptStr, pyTruthyStr, htp, hop] at hs
          | otherError m =>
            simp [get_api_token, _get_token_from_env, _get_token_from_1password,
              pyTruthyOptStr, pyTruthyStr, htp, hop] at hs
      · simp [get_api_token, _get_token_from_env, pyTruthyOptStr, pyTruthyStr, ht] at hs
  · intro henv out hop hstrip
    have htp : token_path = "" ∨ token_path ≠ "" := em _
    rcases htp with htp | htp
    · simp [get_api_token, _get_token_from_env, pyTruthyOptStr, pyTruthyStr, henv, htp]
      cases envToken <;> simp_all [pyTruthyOptStr, pyTruthyStr]
    · cases envToken with
      | none =>
        simp [get_api_token, _get_token_from_env, _get_token_from_1password,
          pyTruthyOptStr, pyTruthyStr, htp, hop, hstrip]
      | some t =>
        simp [pyTruthyOptStr, pyTruthyStr] at henv
        simp [get_api_token, _get_token_from_env, _get_token_from_1password,
          pyTruthyOptStr, pyTruthyStr, htp, hop, hstrip, henv]

theorem token_never_empty_witness :
    (∀ s, (get_api_token "op://Private/Todoist/token" none
      (fun _ => OpResult.ok "  \n")).token = some s → s ≠ "") ∧
    ((get_api_token "op://Private/Todoist/token" none
      (fun _ => OpResult.ok "  \n")).token = none) := by
  have h := token_never_empty "op://Private/Todoist/token" none (fun _ => OpResult.ok "  \n")
  exact ⟨h.1, h.2 (by decide) "  \n" rfl (by decide)⟩

/-- Claim C5, counterexample: the code has no typed AuthError result — the two
failure kinds (secret-store failure vs. nothing configured) both return the
same value None and are not distinguishable in the result. -/
theorem failure_kinds_not_distinguishable :
    (get_api_token "op://Private/Todoist/token" none
      (fun _ => OpResult.calledProcessError "Command failed")).token = none ∧
    (get_api_token "" none
      (fun _ => OpResult.calledProcessError "Command failed")).token = none ∧
    (get_api_token "op://Private/Todoist/token" none
        (fun _ => OpResult.calledProcessError "Command failed")).token =
      (get_api_token "" none
        (fun _ => OpResult.calledProcessError "Command failed")).token := by
  decide

/-- Claim C5 as amended: resolution failure is a returned None, not an
exception. With the environment variable absent, a secret-store invocation
that fails (non-zero exit or missing binary) yields token None after exactly
one attempted lookup, with error diagnostics printed; an empty token_path
yields token None with no lookup and nothing printed. The two failure kinds
are distinguishable only in the printed diagnostics, not in the returned
value. -/
theorem failure_returns_none (token_path : String) (opRead : String → OpResult) :
    (∀ m, token_path ≠ "" → opRead token_path = .calledProcessError m →
      get_api_token token_path none opRead =
        { token := none,
          printed := ["Error retrieving API token from 1Password: " ++ m,
            "Make sure 1Password CLI is installed and you're signed in."],
          opCalls := [token_path] }) ∧
    (∀ m, token_path ≠ "" → opRead token_path = .otherError m →
      get_api_token token_path none opRead =
        { token := none,
          printed := ["Unexpected error accessing 1Password: " ++ m],
          opCalls := [token_path] }) ∧
    (get_api_token "" none opRead =
      { token := none, printed := [], opCalls := [] }) := by
  refine ⟨fun m htp hop => ?_, fun m htp hop => ?_, ?_⟩ <;>
    simp [get_api_token, _get_token_from_env, _get_token_from_1password,
      pyTruthyOptStr, pyTruthyStr, *]

theorem failure_returns_none_witness :
    get_api_token "op://Private/Todoist/token" none
        (fun _ => OpResult.calledProcessError "Command failed") =
      { token := none,
        printed := ["Error retrieving API token from 1Password: Command failed",
          "Make sure 1Password CLI is installed and you're signed in."],
        opCalls := ["op://Private/Todoist/token"] } :=
  (failure_returns_none "op://Private/Todoist/token"
    (fun _ => OpResult.calledProcessError "Command failed")).1
    "Command failed" (by decide) rfl

/-- Claim C9: on successful resolution the printed diagnostic identifies the
strategy that supplied the token but is independent of the token value: two
runs resolving different tokens by the same strategy print identical output,
and the env-var diagnostic differs from the secret-store diagnostic. -/
theorem diagnostic_noninterference (token_path t₁ t₂ s₁ s₂ : String)
    (op₁ op₂ : String → OpResult) :
    (t₁ ≠ "" → t₂ ≠ "" →
      (get_api_token token_path (some t₁) op₁).printed =
        (get_api_token token_path (some t₂) op₂).printed) ∧
    (token_path ≠ "" → op₁ token_path = .ok s₁ → op₂ token_path = .ok s₂ →
      pyStrip s₁ ≠ "" → pyStrip s₂ ≠ "" →
      (get_api_token token_path none op₁).printed =
        (get_api_token token_path none op₂).printed) ∧
    (t₁ ≠ "" → token_path ≠ "" → op₂ token_path = .ok s₂ → pyStrip s₂ ≠ "" →
      (get_api_token token_path (some t₁) op₁).printed ≠
        (get_api_token token_path none op₂).printed) := by
  refine ⟨fun h1 h2 => ?_, fun htp h1 h2 hs1 hs2 => ?_, fun h1 htp h2 hs2 => ?_⟩ <;>
    simp [get_api_token, _get_token_from_env, _get_token_from_1password,
      pyTruthyOptStr, pyTruthyStr, env_var_name, *]

theorem diagnostic_noninterference_witness :
    (get_api_token "op://Private/Todoist/token" (some "token-one")
        (fun _ => OpResult.ok "stored-one")).printed =
      (get_api_token "op://Private/Todoist/token" (some "token-two")
        (fun _ => OpResult.ok "stored-two")).printed := by
  exact (diagnostic_noninterference "op://Private/Todoist/token" "token-one"
    "token-two" "stored-one" "stored-two" (fun _ => OpResult.ok "stored-one")
    (fun _ => OpResult.ok "stored-two")).1 (by decide) (by decide)


/-- Behaviour used to witness claim C2: every creation succeeds; the returned
task id is "42" for a parent call and "43" for a subtask call. -/
def happyApi : ApiBehaviour := fun _ c =>
  match c.parent_id with
  | none => some ⟨"42", c.content⟩
  | some _ => some ⟨"43", c.content⟩

/-- Claim C2: creating a task with subtasks ["A", "B"] performs exactly one
parent-creation call then two subtask-creation calls carrying the parent's
returned id, in order A then B; a parent failure yields zero subtask calls;
a failure on the second subtask leaves the first subtask's call in place. -/
theorem subtask_choreography (api : ApiBehaviour) (content : String) :
    (∀ pt tA tB, api [] ⟨content, none⟩ = some pt →
      api [⟨content, none⟩] ⟨"A", some pt.id⟩ = some tA →
      api [⟨content, none⟩, ⟨"A", some pt.id⟩] ⟨"B", some pt.id⟩ = some tB →
      create_task_with_subtasks api [] content (some ["A", "B"]) =
        ([⟨content, none⟩, ⟨"A", some pt.id⟩, ⟨"B", some pt.id⟩], some pt)) ∧
    (api [] ⟨content, none⟩ = none →
      create_task_with_subtasks api [] content (some ["A", "B"]) =
        ([⟨content, none⟩], none)) ∧
    (∀ pt tA, api [] ⟨content, none⟩ = some pt →
      api [⟨content, none⟩] ⟨"A", some pt.id⟩ = some tA →
      api [⟨content, none⟩, ⟨"A", some pt.id⟩] ⟨"B", some pt.id⟩ = none →
      create_task_with_subtasks api [] content (some ["A", "B"]) =
        ([⟨content, none⟩, ⟨"A", some pt.id⟩, ⟨"B", some pt.id⟩], none)) := by
  refine ⟨fun pt tA tB h1 h2 h3 => ?_, fun h1 => ?_, fun pt tA h1 h2 h3 => ?_⟩ <;>
    simp [create_task_with_subtasks, create_subtasks, add_task, h1, *]

theorem subtask_choreography_witness :
    create_task_with_subtasks happyApi [] "Parent" (some ["A", "B"]) =
      ([⟨"Parent", none⟩, ⟨"A", some "42"⟩, ⟨"B", some "42"⟩],
        some ⟨"42", "Parent"⟩) :=
  (subtask_choreography happyApi "Parent").1 ⟨"42", "Parent"⟩ ⟨"43", "A"⟩
    ⟨"43", "B"⟩ rfl rfl rfl

/-- Claim C3, counterexample: parse_due_date does not map only the literal
strings "today" and "tomorrow" — the comparison is on the lowercased input, so
"TODAY" is converted to the current date instead of passing through. -/
theorem parse_due_date_not_literal :
    parse_due_date ⟨2026, 10, 12⟩ "TODAY" = ⟨"2026-10-12"⟩ ∧
    parse_due_date ⟨2026, 10, 12⟩ "TODAY" ≠ ⟨"TODAY"⟩ := by
  decide

/-- Claim C3 as amended: parse_due_date matches "today" and "tomorrow"
case-insensitively — an input whose lowercasing is "today" yields the current
local date, one whose lowercasing is "tomorrow" yields the current local date
plus one day, and every input whose lowercasing is neither passes through
unchanged as the date value. -/
theorem parse_due_date_spec (today : Date) (s : String) :
    (pyLower s = "today" → parse_due_date today s = ⟨today.isoformat⟩) ∧
    (pyLower s = "tomorrow" → parse_due_date today s = ⟨today.nextDay.isoformat⟩) ∧
    (pyLower s ≠ "today" → pyLower s ≠ "tomorrow" → parse_due_date today s = ⟨s⟩) := by
  refine ⟨fun h => ?_, fun h => ?_, fun h1 h2 => ?_⟩ <;> simp [parse_due_date, *]

theorem parse_due_date_spec_witness :
    parse_due_date ⟨2026, 10, 12⟩ "Tomorrow" = ⟨"2026-10-13"⟩ ∧
    parse_due_date ⟨2026, 10, 12⟩ "next friday" = ⟨"next friday"⟩ :=
  ⟨(parse_due_date_spec ⟨2026, 10, 12⟩ "Tomorrow").2.1 (by decide),
   (parse_due_date_spec ⟨2026, 10, 12⟩ "next friday").2.2 (by decide) (by decide)⟩


/-- Evaluating Char.ofNat inside the valid low range. -/
theorem toNat_charOfNat_of_lt {n : Nat} (h : n < 55296) : (Char.ofNat n).toNat = n := by
  unfold Char.ofNat
  rw [dif_pos (Or.inl h)]
  rfl

/-- Inversion of ASCII lowercasing at the letter y: only 'y' and 'Y' lower to
'y'. -/
theorem toLower_eq_y {c : Char} (h : Char.toLower c = 'y') : c = 'y' ∨ c = 'Y' := by
  simp only [Char.toLower] at h
  split at h
  case isTrue hb =>
    right
    have h2 : (Char.ofNat (c.toNat + 32)).toNat = 121 := by rw [h]; rfl
    have h3 : (Char.ofNat (c.toNat + 32)).toNat = c.toNat + 32 :=
      toNat_charOfNat_of_lt (by omega)
    exact Char.eq_of_val_eq (UInt32.toNat.inj (show c.toNat = 89 by omega))
  case isFalse hb => exact Or.inl h

/-- Inversion of pyLower at "y": only the strings "y" and "Y" lower to "y". -/
theorem pyLower_eq_y {s : String} (h : pyLower s = "y") : s = "y" ∨ s = "Y" := by
  cases s with
  | mk data =>
    cases data with
    | nil => simp [pyLower] at h
    | cons c rest =>
      cases rest with
      | nil =>
        have hc : Char.toLower c = 'y' := by
          have := congrArg String.data h
          simpa [pyLower] using this
        rcases toLower_eq_y hc with h' | h' <;> simp [h']
      | cons c2 rest2 =>
        have := congrArg String.data h
        simp [pyLower] at this

/-- Claim C4: for the delete command without --force, any confirmation line
other than "y" or "Y" results in zero remote delete calls and the
cancellation message; the line "y" results in exactly one delete call. -/
theorem delete_confirmation (task_id inputLine : String) :
    (inputLine ≠ "y" → inputLine ≠ "Y" →
      delete_task_execute task_id false inputLine =
        ⟨[], ["Deletion cancelled."]⟩) ∧
    (delete_task_execute task_id false "y" =
        ⟨[task_id], ["Task " ++ task_id ++ " deleted!"]⟩ ∧
      (delete_task_execute task_id false "y").deleteCalls.length = 1) := by
  refine ⟨fun h1 h2 => ?_, ?_, ?_⟩
  · have hly : pyLower inputLine ≠ "y" := fun h => by
      rcases pyLower_eq_y h with h' | h' <;> simp_all
    simp [delete_task_execute, hly]
  · simp [delete_task_execute, pyLower]
  · simp [delete_task_execute, pyLower]

theorem delete_confirmation_witness :
    delete_task_execute "12345" false "n" = ⟨[], ["Deletion cancelled."]⟩ ∧
    delete_task_execute "12345" false "y" =
      ⟨["12345"], ["Task 12345 deleted!"]⟩ :=
  ⟨(delete_confirmation "12345" "n").1 (by decide) (by decide),
   (delete_confirmation "12345" "y").2.1⟩

/-- Claim C6: dispatching a command name that is not registered shows the full
help table rather than raising, and the entry point completes with exit code
0. -/
theorem unknown_command_shows_help (name : String)
    (h : name ∉ registration_order.map Prod.fst) :
    execute_command initial_commands name = .helpShown ∧
    entry_exit_code name = 0 := by
  have hkeys : initial_commands.map Prod.fst = registration_order.map Prod.fst := by
    decide
  have hfind : initial_commands.find? (fun p => p.1 == name) = none := by
    rw [List.find?_eq_none]
    intro p hp hbeq
    have : p.1 = name := by simpa using hbeq
    subst this
    exact h (hkeys ▸ List.mem_map_of_mem Prod.fst hp)
  refine ⟨?_, ?_⟩
  · simp [execute_command, hfind]
  · simp [entry_exit_code, execute_command, hfind]

theorem unknown_command_shows_help_witness :
    execute_command initial_commands "frobnicate" = .helpShown ∧
    entry_exit_code "frobnicate" = 0 :=
  unknown_command_shows_help "frobnicate" (by decide)


/-- Claim C7, counterexample: when the config file is missing, load_config
silently returns the defaults — the os.path.exists guard skips the try block,
so no warning is logged, contrary to the claim. -/
theorem load_config_missing_no_warning :
    load_config .absent = (default_config, false) := by
  decide

/-- Claim C7 as amended: load_config returns the defaults overlaid with the
parsed key-value pairs when the file exists and parses; a malformed file
yields exactly the defaults with a warning logged; a missing file yields
exactly the defaults silently; no case raises. -/
theorem load_config_spec :
    (∀ kvs, load_config (.object kvs) = (dictUpdate default_config kvs, false)) ∧
    load_config .malformed = (default_config, true) ∧
    load_config .absent = (default_config, false) := by
  refine ⟨fun kvs => rfl, rfl, rfl⟩

section DictLemmas

variable {α : Type}

/-- dictSet leaves the key sequence unchanged when the key is already present. -/
theorem map_fst_dictSet_of_mem {reg : List (String × α)} {k : String} {v : α}
    (h : k ∈ reg.map Prod.fst) :
    (dictSet reg k v).map Prod.fst = reg.map Prod.fst := by
  unfold dictSet
  rw [if_pos h, List.map_map]
  apply List.map_congr_left
  intro p _
  by_cases hp : p.1 = k <;> simp [hp]

/-- dictSet rewrites in place when the key is already present. -/
theorem dictSet_of_mem {reg : List (String × α)} {k : String} {v : α}
    (h : k ∈ reg.map Prod.fst) :
    dictSet reg k v = reg.map (fun p => if p.1 = k then (k, v) else p) := by
  unfold dictSet
  rw [if_pos h]

/-- dictSet appends when the key is new. -/
theorem dictSet_of_not_mem {reg : List (String × α)} {k : String} {v : α}
    (h : k ∉ reg.map Prod.fst) :
    dictSet reg k v = reg ++ [(k, v)] := by
  unfold dictSet
  rw [if_neg h]

/-- dictSet passes over a head entry with a different key when the key occurs
in the tail. -/
theorem dictSet_cons_of_ne {p : String × α} {rest : List (String × α)}
    {k : String} {v : α} (hne : k ≠ p.1) (hmem : k ∈ rest.map Prod.fst) :
    dictSet (p :: rest) k v = p :: dictSet rest k v := by
  have hmem' : k ∈ (p :: rest).map Prod.fst := by simp [hmem]
  have hne' : ¬(p.1 = k) := fun h => hne h.symm
  rw [dictSet_of_mem hmem', dictSet_of_mem hmem, List.map_cons, if_neg hne']

/-- Folding assignments whose keys all occur in acc and avoid the head key
leaves the head entry in place. -/
theorem foldl_dictSet_cons {rest : List (String × α)} :
    ∀ {acc : List (String × α)} {p : String × α},
      (∀ q ∈ rest, q.1 ≠ p.1) → (∀ q ∈ rest, q.1 ∈ acc.map Prod.fst) →
      List.foldl (fun a q => dictSet a q.1 q.2) (p :: acc) rest =
        p :: List.foldl (fun a q => dictSet a q.1 q.2) acc rest := by
  induction rest with
  | nil => intro acc p _ _; rfl
  | cons q rest ih =>
    intro acc p hne hmem
    have h1 : q.1 ≠ p.1 := hne q (by simp)
    have h2 : q.1 ∈ acc.map Prod.fst := hmem q (by simp)
    rw [List.foldl_cons, List.foldl_cons, dictSet_cons_of_ne h1 h2]
    refine ih (fun r hr => hne r (by simp [hr])) (fun r hr => ?_)
    rw [map_fst_dictSet_of_mem h2]
    exact hmem r (by simp [hr])

/-- Folding the entries of u over a base with the same nodup key sequence
recreates u. -/
theorem foldl_dictSet_self : ∀ {u d : List (String × α)},
    u.map Prod.fst = d.map Prod.fst → (d.map Prod.fst).Nodup →
    List.foldl (fun a q => dictSet a q.1 q.2) d u = u := by
  intro u
  induction u with
  | nil =>
    intro d hmap _
    cases d with
    | nil => rfl
    | cons p d' => simp at hmap
  | cons q u' ih =>
    intro d hmap hnd
    cases d with
    | nil => simp at hmap
    | cons p d' =>
      simp only [List.map_cons, List.cons.injEq] at hmap
      obtain ⟨hk, hmap'⟩ := hmap
      simp only [List.map_cons, List.nodup_cons] at hnd
      obtain ⟨hp, hnd'⟩ := hnd
      have hq : q.1 ∈ (p :: d').map Prod.fst := by simp [hk]
      have htail : d'.map (fun r => if r.1 = q.1 then (q.1, q.2) else r) = d' := by
        have hcongr : d'.map (fun r => if r.1 = q.1 then (q.1, q.2) else r) =
            d'.map id := by
          apply List.map_congr_left
          intro r hr
          have hrq : ¬(r.1 = q.1) := by
            intro hcon
            exact hp (hk ▸ hcon ▸ List.mem_map_of_mem Prod.fst hr)
          simp [hrq]
        rw [hcongr, List.map_id]
      have hstep : dictSet (p :: d') q.1 q.2 = q :: d' := by
        rw [dictSet_of_mem hq, List.map_cons, if_pos hk.symm, htail]
      rw [List.foldl_cons, hstep]
      have hne : ∀ r ∈ u', r.1 ≠ q.1 := by
        intro r hr hcon
        apply hp
        rw [← hk, ← hcon]
        exact hmap' ▸ List.mem_map_of_mem Prod.fst hr
      have hmem : ∀ r ∈ u', r.1 ∈ d'.map Prod.fst := by
        intro r hr
        exact hmap' ▸ List.mem_map_of_mem Prod.fst hr
      rw [foldl_dictSet_cons hne hmem, ih hmap' hnd']

/-- Folding entries with fresh nodup keys appends them in order. -/
theorem foldl_dictSet_append_new : ∀ {l₂ acc : List (String × α)},
    (∀ q ∈ l₂, q.1 ∉ acc.map Prod.fst) → ((l₂.map Prod.fst).Nodup) →
    List.foldl (fun a q => dictSet a q.1 q.2) acc l₂ = acc ++ l₂ := by
  intro l₂
  induction l₂ with
  | nil => intro acc _ _; simp
  | cons q l ih =>
    intro acc hnotin hnd
    simp only [List.map_cons, List.nodup_cons] at hnd
    rw [List.foldl_cons, dictSet_of_not_mem (hnotin q (by simp))]
    rw [ih ?h1 hnd.2]
    · simp
    case h1 =>
      intro r hr
      rw [List.map_append]
      simp only [List.mem_append, List.map_cons, List.map_nil,
        List.mem_singleton, not_or]
      refine ⟨hnotin r (by simp [hr]), ?_⟩
      intro hcon
      exact hnd.1 (hcon ▸ List.mem_map_of_mem Prod.fst hr)

/-- The shape dict.update produces over a base dict: the base's key sequence
first (with values possibly replaced), new keys appended, and no duplicate
keys anywhere. -/
def Overlaid (d u : List (String × α)) : Prop :=
  ∃ u₁ u₂, u = u₁ ++ u₂ ∧ u₁.map Prod.fst = d.map Prod.fst ∧
    (∀ q ∈ u₂, q.1 ∉ d.map Prod.fst) ∧ (u.map Prod.fst).Nodup

/-- A single assignment preserves the overlay shape. -/
theorem overlaid_dictSet {d u : List (String × α)} {k : String} {v : α}
    (h : Overlaid d u) : Overlaid d (dictSet u k v) := by
  obtain ⟨u₁, u₂, rfl, hkeys, hnew, hnd⟩ := h
  by_cases hmem : k ∈ (u₁ ++ u₂).map Prod.fst
  · have hset := dictSet_of_mem (v := v) hmem
    refine ⟨u₁.map (fun p => if p.1 = k then (k, v) else p),
      u₂.map (fun p => if p.1 = k then (k, v) else p), ?_, ?_, ?_, ?_⟩
    · rw [hset, List.map_append]
    · rw [List.map_map, ← hkeys]
      apply List.map_congr_left
      intro p _
      by_cases hp : p.1 = k <;> simp [hp]
    · intro q hq
      simp only [List.mem_map] at hq
      obtain ⟨r, hr, rfl⟩ := hq
      by_cases hrk : r.1 = k
      · simp only [if_pos hrk]
        have hku₂ : k ∈ u₂.map Prod.fst := hrk ▸ List.mem_map_of_mem Prod.fst hr
        have hdisj := List.disjoint_of_nodup_append
          (by rw [← List.map_append]; exact hnd)
        intro hcon
        exact hdisj (hkeys ▸ hcon) hku₂
      · simp only [if_neg hrk]
        exact hnew r hr
    · rw [map_fst_dictSet_of_mem hmem]
      exact hnd
  · refine ⟨u₁, u₂ ++ [(k, v)], ?_, hkeys, ?_, ?_⟩
    · rw [dictSet_of_not_mem hmem, List.append_assoc]
    · intro q hq
      rcases List.mem_append.mp hq with hql | hqr
      · exact hnew q hql
      · have hq' : q = (k, v) := List.mem_singleton.mp hqr
        subst hq'
        intro hcon
        apply hmem
        rw [List.map_append, List.mem_append]
        exact Or.inl (hkeys ▸ hcon)
    · rw [dictSet_of_not_mem hmem, List.map_append, List.nodup_append]
      refine ⟨hnd, by simp, ?_⟩
      intro a ha
      simp only [List.map_cons, List.map_nil, List.mem_singleton]
      intro hcon
      exact hmem (hcon ▸ ha)

/-- dict.update over a nodup base produces an overlay-shaped dict. -/
theorem overlaid_dictUpdate {d : List (String × α)}
    (hnd : (d.map Prod.fst).Nodup) (kvs : List (String × α)) :
    Overlaid d (dictUpdate d kvs) := by
  suffices h : ∀ u, Overlaid d u → Overlaid d (dictUpdate u kvs) from
    h d ⟨d, [], by simp, rfl, by simp, hnd⟩
  unfold dictUpdate
  induction kvs with
  | nil => intro u hu; exact hu
  | cons q kvs ih =>
    intro u hu
    rw [List.foldl_cons]
    exact ih _ (overlaid_dictSet hu)

/-- Updating a base with an overlay-shaped dict returns that dict unchanged. -/
theorem dictUpdate_overlaid_eq {d u : List (String × α)} (h : Overlaid d u) :
    dictUpdate d u = u := by
  obtain ⟨u₁, u₂, rfl, hkeys, hnew, hnd⟩ := h
  unfold dictUpdate
  rw [List.foldl_append]
  have hnd₁ : (d.map Prod.fst).Nodup := by
    rw [← hkeys]
    rw [List.map_append] at hnd
    exact hnd.of_append_left
  rw [foldl_dictSet_self hkeys hnd₁]
  apply foldl_dictSet_append_new
  · intro q hq
    rw [hkeys]
    exact hnew q hq
  · rw [List.map_append] at hnd
    exact hnd.of_append_right

/-- dict.update of a nodup base is idempotent on its own output. -/
theorem dictUpdate_idem {d : List (String × α)}
    (hnd : (d.map Prod.fst).Nodup) (kvs : List (String × α)) :
    dictUpdate d (dictUpdate d kvs) = dictUpdate d kvs :=
  dictUpdate_overlaid_eq (overlaid_dictUpdate hnd kvs)

end DictLemmas

/-- Claim C8: for every starting file, saving the loaded configuration writes
a file whose parsed content reloads to that same configuration, and saving
again writes the identical file — serialization followed by reload is
idempotent. -/
theorem save_load_round_trip (file : FileContent) :
    (load_config (save_config (load_config file).1)).1 = (load_config file).1 ∧
    save_config (load_config (save_config (load_config file).1)).1 =
      save_config (load_config file).1 := by
  have hnd : (default_config.map Prod.fst).Nodup := by decide
  have hdd : dictUpdate default_config default_config = default_config :=
    dictUpdate_overlaid_eq ⟨default_config, [], by simp, rfl, by simp, hnd⟩
  have h1 : (load_config (save_config (load_config file).1)).1 =
      (load_config file).1 := by
    cases file with
    | absent => exact hdd
    | malformed => exact hdd
    | object kvs => exact dictUpdate_idem hnd kvs
  exact ⟨h1, congrArg save_config h1⟩

end TodoistCLI
